import Mathlib

/-!
Verification of the Conversation Memory Augmentation Hook
(`ch05_ai_agent/memory_hook_provider.py`).

The hook is embedded shallowly: the agent state carried by the runtime
events is an explicit `Agent` record, the external memory store is a
record of (pure) response functions `MemoryClient`, and each handler is a
pure function from the hook configuration, the client and the incoming
agent state to the resulting agent state, the trace of store calls it
issued, and its outcome (`Except.error` models a raised exception
escaping the handler).

`on_message_added` starts from `messages = copy.deepcopy(event.agent.messages)`;
in the embedding this snapshot is the binding of `agent.messages` taken
before any in-place augmentation, which reproduces the deep-copy
semantics exactly.
-/

/-- One element of a runtime message's `content` list; only the optional
`"text"` field is relevant to the hook (`None` models a content block
without a `"text"` key, e.g. a tool-use block). -/
structure ContentBlock where
  text : Option String
  deriving DecidableEq

/-- A runtime conversation message: `{role: string, content: [...]}`. -/
structure Msg where
  role : String
  content : List ContentBlock
  deriving DecidableEq

/-- The mutable agent state reachable through the events:
`event.agent.system_prompt` and `event.agent.messages`. -/
structure Agent where
  system_prompt : String
  messages : List Msg
  deriving DecidableEq

/-- A message inside one turn returned by `get_last_k_turns`; the code
reads `message["role"]` and `message["content"]["text"]`. -/
structure StoreMsg where
  role : String
  text : String
  deriving DecidableEq

/-- A long-term memory record returned by `retrieve_memories`; the code
reads only `memory["content"]["text"]`. -/
structure MemoryRecord where
  text : String
  deriving DecidableEq

/-- Store-side failures are modelled by their exception message. -/
abbrev StoreErr := String

/-- One call issued to the memory store, with its arguments. -/
inductive StoreCall where
  | retrieveCall (memory_id ns query : String) (top_k : Nat)
  | saveCall (memory_id actor_id session_id : String)
      (messages : List (String × String))
  deriving DecidableEq

/-- The external `MemoryClient`, as a test double: each method is a pure
function from its arguments to either a result or a raised error.
Argument order follows the source call sites:
`get_last_k_turns(memory_id, actor_id, session_id, k)`,
`retrieve_memories(memory_id, namespace, query, top_k)`,
`save_conversation(memory_id, actor_id, session_id, messages)`. -/
structure MemoryClient where
  get_last_k_turns : String → String → String → Nat →
    Except StoreErr (List (List StoreMsg))
  retrieve_memories : String → String → String → Nat →
    Except StoreErr (List MemoryRecord)
  save_conversation : String → String → String → List (String × String) →
    Except StoreErr Unit

/-- The hook's immutable configuration (`MemoryHook.__init__`). -/
structure MemoryHook where
  memory_id : String
  actor_id : String
  session_id : String
  namespace_prefix : String
  deriving DecidableEq

/-- `MemoryHook.__init__`: `self.namespace_prefix = namespace_prefix or ""`
(both `None` and the empty string yield `""`). -/
def MemoryHook.mk_hook (memory_id actor_id session_id : String)
    (pfx : Option String) : MemoryHook :=
  ⟨memory_id, actor_id, session_id,
    match pfx with
    | none => ""
    | some s => s⟩

/-- The namespace f-strings of `on_message_added`:
`f"{self.namespace_prefix}/preferences/{self.actor_id}"` and the same
with `issues`. -/
def resolve_namespace (pfx category actor_id : String) : String :=
  pfx ++ "/" ++ category ++ "/" ++ actor_id

/-- The exact guidance literal appended to `event.agent.system_prompt`
by `on_agent_initialized`. -/
def memory_guidance : String :=
  "\n                ユーザーの嗜好や問題を直接回答しないでください。\n                ユーザーの嗜好や問題は、ユーザーをより理解するために厳密に使用してください。\n                また、この情報は古い可能性があることに注意してください。\n                "

/-- Body of the formatting loop of `on_agent_initialized`:
`role = "assistant" if message["role"] == "ASSISTANT" else "user"`,
`{"role": role, "content": [{"text": content}]}`. -/
def format_turn_msg (m : StoreMsg) : Msg :=
  { role := if m.role = "ASSISTANT" then "assistant" else "user",
    content := [⟨some m.text⟩] }

/-- The formatting pass over the flattened sequence of stored turn
messages (the source's nested `for turn in recent_turns: for message in
turn:` appends exactly the image of the flattened sequence). -/
def format_recent_turns (turns : List StoreMsg) : List Msg :=
  turns.map format_turn_msg

/-- `MemoryHook.on_agent_initialized`: load the last 5 turns; on any
raised store error the handler catches, logs and leaves the agent
untouched; on a truthy (non-empty) result it appends the guidance to the
system prompt and replaces the message history with the formatted
flattened turns. -/
def on_agent_initialized (hook : MemoryHook) (client : MemoryClient)
    (agent : Agent) : Agent :=
  match client.get_last_k_turns hook.memory_id hook.actor_id hook.session_id 5 with
  | .error _ => agent
  | .ok recent_turns =>
      if recent_turns.isEmpty then agent
      else
        { system_prompt := agent.system_prompt ++ memory_guidance,
          messages := format_recent_turns recent_turns.flatten }

/-- In-place update `... ["text"] += s` of one content block (a block
without a `"text"` key is unreachable from the handler's guarded path
and is left unchanged). -/
def append_to_block (c : ContentBlock) (s : String) : ContentBlock :=
  ⟨c.text.map (fun t => t ++ s)⟩

/-- In-place update of `message["content"][0]["text"] += s`. -/
def append_to_msg (m : Msg) (s : String) : Msg :=
  { m with
    content :=
      match m.content with
      | [] => []
      | c :: rest => append_to_block c s :: rest }

/-- In-place update of the last element of a message list. -/
def append_to_last (msgs : List Msg) (s : String) : List Msg :=
  match msgs with
  | [] => []
  | [m] => [append_to_msg m s]
  | m :: m2 :: rest => m :: append_to_last (m2 :: rest) s

/-- `event.agent.messages[-1]["content"][0]["text"] += s`. -/
def append_to_last_text (agent : Agent) (s : String) : Agent :=
  { agent with messages := append_to_last agent.messages s }

/-- The `for memory in memories:` loop of `_add_context_user_query`.
`content` starts as `None`; each iteration sets it to the header on a
falsy value, appends the record text, and — since the accumulated string
is then always truthy — appends the whole accumulated string plus
`"\n\n"` to the live last message's text. -/
def add_context_loop (init_content : String) (agent : Agent)
    (content : Option String) : List MemoryRecord → Agent
  | [] => agent
  | memory :: rest =>
      let c0 : String :=
        match content with
        | none => "\n\n" ++ init_content ++ "\n\n"
        | some c => if c = "" then "\n\n" ++ init_content ++ "\n\n" else c
      let c1 := c0 ++ memory.text
      let agent1 := if c1 = "" then agent else append_to_last_text agent (c1 ++ "\n\n")
      add_context_loop init_content agent1 (some c1) rest

deriving instance DecidableEq for Except

/-- Outcome of one handler invocation: the agent state after the call,
the store calls issued (in order), and normal return (`ok`) versus a
raised exception (`error` with its message). -/
structure HookOutcome where
  agent : Agent
  calls : List StoreCall
  result : Except String Unit
  deriving DecidableEq

/-- `MemoryHook._add_context_user_query`: one `retrieve_memories` call
(whose raised error propagates to the caller), then the augmentation
loop over the returned records. -/
def _add_context_user_query (hook : MemoryHook) (client : MemoryClient)
    (ns query init_content : String) (agent : Agent) : HookOutcome :=
  let call := StoreCall.retrieveCall hook.memory_id ns query 3
  match client.retrieve_memories hook.memory_id ns query 3 with
  | .error e => ⟨agent, [call], .error e⟩
  | .ok memories => ⟨add_context_loop init_content agent none memories, [call], .ok ()⟩

/-- `MemoryHook.on_message_added`. The snapshot `messages` is taken
before any augmentation; every query and the persisted pair come from
it. The whole body is inside `try: ... except Exception as e: raise
RuntimeError(f"Memory 保存エラー: {e}")`, so any error below is
re-raised wrapped; an out-of-range index access raises too. -/
def on_message_added (hook : MemoryHook) (client : MemoryClient)
    (agent : Agent) : HookOutcome :=
  let messages := agent.messages
  match messages.getLast? with
  | none => ⟨agent, [], .error "Memory 保存エラー: list index out of range"⟩
  | some last =>
      if last.role = "user" ∨ last.role = "assistant" then
        match last.content.head? with
        | none => ⟨agent, [], .error "Memory 保存エラー: list index out of range"⟩
        | some c0 =>
            match c0.text with
            | none => ⟨agent, [], .ok ()⟩
            | some text =>
                let afterCtx : HookOutcome :=
                  if last.role = "user" then
                    let pref := _add_context_user_query hook client
                      (resolve_namespace hook.namespace_prefix "preferences" hook.actor_id)
                      text "これらはユーザーの嗜好です:" agent
                    match pref.result with
                    | .error e => ⟨pref.agent, pref.calls, .error e⟩
                    | .ok _ =>
                        let iss := _add_context_user_query hook client
                          (resolve_namespace hook.namespace_prefix "issues" hook.actor_id)
                          text "これらはユーザーの問題です:" pref.agent
                        ⟨iss.agent, pref.calls ++ iss.calls, iss.result⟩
                  else ⟨agent, [], .ok ()⟩
                match afterCtx.result with
                | .error e => ⟨afterCtx.agent, afterCtx.calls, .error ("Memory 保存エラー: " ++ e)⟩
                | .ok _ =>
                    let sc := StoreCall.saveCall hook.memory_id hook.actor_id
                      hook.session_id [(text, last.role)]
                    match client.save_conversation hook.memory_id hook.actor_id
                        hook.session_id [(text, last.role)] with
                    | .ok _ => ⟨afterCtx.agent, afterCtx.calls ++ [sc], .ok ()⟩
                    | .error e =>
                        ⟨afterCtx.agent, afterCtx.calls ++ [sc],
                          .error ("Memory 保存エラー: " ++ e)⟩
      else ⟨agent, [], .ok ()⟩

/-- Whether a store call is a `save_conversation` call. -/
def StoreCall.isSave : StoreCall → Bool
  | .saveCall _ _ _ _ => true
  | _ => false

/-- Number of `save_conversation` calls in a trace. -/
def countSaves (calls : List StoreCall) : Nat :=
  (calls.filter StoreCall.isSave).length

/-- Whether a store call is a `retrieve_memories` call. -/
def StoreCall.isRetrieve : StoreCall → Bool
  | .retrieveCall _ _ _ _ => true
  | _ => false

/-- A call uses only the pre-augmentation turn data: a retrieval queries
the original text, a save persists exactly the original (text, role)
pair. -/
def call_uses_original (text role : String) : StoreCall → Prop
  | .retrieveCall _ _ q _ => q = text
  | .saveCall _ _ _ msgs => msgs = [(text, role)]

/-! ## Concrete fixtures (stub clients and agents for counterexamples
and witnesses) -/

/-- A hook configured with an empty namespace prefix, as the repository's
agents do by default. -/
def hook0 : MemoryHook := ⟨"mem1", "alice", "s1", ""⟩

/-- An agent whose single (hence most recent) message is a user turn
with the given text. -/
def user_agent (t : String) : Agent := ⟨"sys", [⟨"user", [⟨some t⟩]⟩]⟩

/-- Stub client: empty history, retrieval dispatched on the namespace
(`hook0`'s preferences namespace versus anything else), configurable
save outcome. -/
def stub_client (pref iss : Except StoreErr (List MemoryRecord))
    (save : Except StoreErr Unit) : MemoryClient :=
  ⟨fun _ _ _ _ => .ok [],
   fun _ ns _ _ => if ns = "/preferences/alice" then pref else iss,
   fun _ _ _ _ => save⟩

/-- Stub client whose retrievals and save all succeed with no records. -/
def client_ok : MemoryClient := stub_client (.ok []) (.ok []) (.ok ())

/-- Stub client: one preferences record, issues retrieval raises
`StoreUnavailable`, save succeeds. -/
def client_iss_fail : MemoryClient :=
  stub_client (.ok [⟨"likes premium covers"⟩]) (.error "StoreUnavailable") (.ok ())

/-- Stub client: two preferences records, no issues records, save
succeeds. -/
def client_two_prefs : MemoryClient :=
  stub_client (.ok [⟨"a"⟩, ⟨"b"⟩]) (.ok []) (.ok ())

/-- Modelled from the spec: `ContextAssembler.formatMemoryBlock` — the
spec's description of the block the hook should append ("returns empty
when `records` is empty; otherwise concatenates `header` followed by
each record's text, newline-joined, with a blank-line separator between
header and body"). The repository has no such function; it is stated
here only to compare the hook's actual appended text against it. -/
def formatMemoryBlock (records : List MemoryRecord) (header : String) : String :=
  if records.isEmpty then ""
  else header ++ "\n\n" ++ String.intercalate "\n" (records.map MemoryRecord.text)

/-! ## Claims -/

/-- C1 (counterexample): with a store whose `issues` retrieval raises and
whose `preferences` retrieval and save succeed, `on_message_added` on a
user turn issues the two retrieval calls but **no** save call at all —
not "exactly once" as claimed — and raises a wrapped error instead of
completing. -/
theorem C1_counterexample :
    (on_message_added hook0 client_iss_fail (user_agent "hi")).calls =
      [.retrieveCall "mem1" "/preferences/alice" "hi" 3,
       .retrieveCall "mem1" "/issues/alice" "hi" 3] ∧
    countSaves (on_message_added hook0 client_iss_fail (user_agent "hi")).calls = 0 ∧
    (on_message_added hook0 client_iss_fail (user_agent "hi")).result =
      Except.error "Memory 保存エラー: StoreUnavailable" :=
  ⟨rfl, rfl, rfl⟩

/-- C2 (counterexample): a most-recent turn with a text field but a role
that is neither `user` nor `assistant` (here `tool`) is ignored
entirely: `on_message_added` makes no store call — in particular zero
`save_conversation` calls, not "exactly once". -/
theorem C2_counterexample :
    on_message_added hook0 client_ok ⟨"sys", [⟨"tool", [⟨some "x"⟩]⟩]⟩ =
      ⟨⟨"sys", [⟨"tool", [⟨some "x"⟩]⟩]⟩, [], .ok ()⟩ ∧
    countSaves (on_message_added hook0 client_ok ⟨"sys", [⟨"tool", [⟨some "x"⟩]⟩]⟩).calls = 0 :=
  ⟨rfl, rfl⟩

/-- C4: with two preference records `a`, `b` retrieved for user text
`q`, the augmentation loop appends the header block once **per record**
with the accumulated record texts (`"\n\nH\n\na\n\n"` then
`"\n\nH\n\nab\n\n"`), which differs from the single
header-plus-newline-joined-records block the spec describes
(`"\n\nH\n\na\nb\n\n"`): the in-loop append duplicates the header and
the earlier records' text. -/
theorem C4_duplicated_block :
    (on_message_added hook0 client_two_prefs (user_agent "q")).agent.messages =
      [⟨"user", [⟨some ("q" ++ "\n\nこれらはユーザーの嗜好です:\n\na\n\n"
        ++ "\n\nこれらはユーザーの嗜好です:\n\nab\n\n")⟩]⟩] ∧
    ("q" ++ "\n\nこれらはユーザーの嗜好です:\n\na\n\n"
        ++ "\n\nこれらはユーザーの嗜好です:\n\nab\n\n") ≠
      "q" ++ "\n\n" ++ formatMemoryBlock [⟨"a"⟩, ⟨"b"⟩] "これらはユーザーの嗜好です:" ++ "\n\n" :=
  ⟨rfl, by decide⟩

/-- C1 (amended): a retrieval failure is *not* absorbed per namespace:
when the preferences retrieval succeeds and the issues retrieval raises,
the preferences block has already been appended in place, but the
exception escapes the handler as a wrapped error, and `save_conversation`
is never called. -/
theorem C1_amended (hook : MemoryHook) (client : MemoryClient) (agent : Agent)
    (last : Msg) (c0 : ContentBlock) (text : String) (prefs : List MemoryRecord)
    (e : StoreErr)
    (hlast : agent.messages.getLast? = some last)
    (hrole : last.role = "user")
    (hhead : last.content.head? = some c0)
    (htext : c0.text = some text)
    (hpref : client.retrieve_memories hook.memory_id
      (resolve_namespace hook.namespace_prefix "preferences" hook.actor_id) text 3 = .ok prefs)
    (hiss : client.retrieve_memories hook.memory_id
      (resolve_namespace hook.namespace_prefix "issues" hook.actor_id) text 3 = .error e) :
    (on_message_added hook client agent).agent =
      add_context_loop "これらはユーザーの嗜好です:" agent none prefs ∧
    countSaves (on_message_added hook client agent).calls = 0 ∧
    (on_message_added hook client agent).result =
      .error ("Memory 保存エラー: " ++ e) := by
  unfold on_message_added _add_context_user_query
  simp only [hlast, hrole, hhead, htext, hpref, hiss]
  simp [countSaves, StoreCall.isSave]

/-- Witness for C1 (amended) at a concrete store stub and user turn. -/
theorem C1_amended_witness :
    (on_message_added hook0 client_iss_fail (user_agent "hi")).agent =
      add_context_loop "これらはユーザーの嗜好です:" (user_agent "hi") none
        [⟨"likes premium covers"⟩] ∧
    countSaves (on_message_added hook0 client_iss_fail (user_agent "hi")).calls = 0 ∧
    (on_message_added hook0 client_iss_fail (user_agent "hi")).result =
      .error ("Memory 保存エラー: " ++ "StoreUnavailable") :=
  C1_amended hook0 client_iss_fail (user_agent "hi") ⟨"user", [⟨some "hi"⟩]⟩
    ⟨some "hi"⟩ "hi" [⟨"likes premium covers"⟩] "StoreUnavailable"
    rfl rfl rfl rfl rfl rfl

/-- Stub client whose retrievals succeed with no records and whose save
raises `StoreUnavailable`. -/
def client_save_fail : MemoryClient :=
  stub_client (.ok []) (.ok []) (.error "StoreUnavailable")

/-- C3: when the handler reaches the persistence call and
`save_conversation` raises, `on_message_added` raises (a wrapped
`RuntimeError`) rather than returning normally. -/
theorem C3_save_failure_propagates (hook : MemoryHook) (client : MemoryClient)
    (agent : Agent) (last : Msg) (c0 : ContentBlock) (text : String) (e : StoreErr)
    (hlast : agent.messages.getLast? = some last)
    (hrole : last.role = "user" ∨ last.role = "assistant")
    (hhead : last.content.head? = some c0)
    (htext : c0.text = some text)
    (hret : ∀ ns, ∃ ms, client.retrieve_memories hook.memory_id ns text 3 = Except.ok ms)
    (hsave : client.save_conversation hook.memory_id hook.actor_id hook.session_id
      [(text, last.role)] = .error e) :
    (on_message_added hook client agent).result =
      .error ("Memory 保存エラー: " ++ e) := by
  unfold on_message_added _add_context_user_query
  rcases hrole with hrole | hrole <;> rw [hrole] at hsave
  · obtain ⟨ms1, h1⟩ := hret (resolve_namespace hook.namespace_prefix "preferences" hook.actor_id)
    obtain ⟨ms2, h2⟩ := hret (resolve_namespace hook.namespace_prefix "issues" hook.actor_id)
    simp only [hlast, hrole, hhead, htext, h1, h2, hsave]
    simp
  · simp only [hlast, hrole, hhead, htext, hsave]
    simp

/-- Witness for C3: an assistant turn with a failing save. -/
theorem C3_witness :
    (on_message_added hook0 client_save_fail
      ⟨"sys", [⟨"assistant", [⟨some "y"⟩]⟩]⟩).result =
      .error ("Memory 保存エラー: " ++ "StoreUnavailable") :=
  C3_save_failure_propagates hook0 client_save_fail
    ⟨"sys", [⟨"assistant", [⟨some "y"⟩]⟩]⟩ ⟨"assistant", [⟨some "y"⟩]⟩
    ⟨some "y"⟩ "y" "StoreUnavailable" rfl (Or.inr rfl) rfl rfl
    (fun ns => ⟨[], by simp [client_save_fail, stub_client]⟩) rfl

/-- Stub client whose `get_last_k_turns` raises `StoreUnavailable`. -/
def client_get_fail : MemoryClient :=
  ⟨fun _ _ _ _ => .error "StoreUnavailable",
   fun _ _ _ _ => .ok [], fun _ _ _ _ => .ok ()⟩

/-- C5: when `get_last_k_turns` raises, `on_agent_initialized` completes
normally (the embedding is a total function into `Agent`) and returns
the agent unchanged: message history and system prompt untouched. -/
theorem C5_init_failure_cold_start (hook : MemoryHook) (client : MemoryClient)
    (agent : Agent) (e : StoreErr)
    (h : client.get_last_k_turns hook.memory_id hook.actor_id hook.session_id 5 =
      .error e) :
    on_agent_initialized hook client agent = agent := by
  unfold on_agent_initialized
  simp [h]

/-- Witness for C5 at a concrete failing store. -/
theorem C5_witness :
    on_agent_initialized hook0 client_get_fail ⟨"sys", []⟩ = ⟨"sys", []⟩ :=
  C5_init_failure_cold_start hook0 client_get_fail ⟨"sys", []⟩ "StoreUnavailable" rfl

/-- C6: on a successful load, a truthy (non-empty) turn list makes
`on_agent_initialized` append the guidance to the existing system prompt
(which is preserved as a prefix) and replace the message history with
exactly the formatted flattened turns in order; an empty result leaves
the agent untouched. -/
theorem C6_init_success (hook : MemoryHook) (client : MemoryClient)
    (agent : Agent) (turns : List (List StoreMsg))
    (h : client.get_last_k_turns hook.memory_id hook.actor_id hook.session_id 5 =
      .ok turns) :
    (turns ≠ [] → on_agent_initialized hook client agent =
      { system_prompt := agent.system_prompt ++ memory_guidance,
        messages := format_recent_turns turns.flatten }) ∧
    (turns = [] → on_agent_initialized hook client agent = agent) := by
  unfold on_agent_initialized
  constructor
  · intro hne
    simp [h, hne]
  · intro he
    simp [h, he]

/-- Stub client returning one stored turn with a user and an assistant
message. -/
def client_hist : MemoryClient :=
  ⟨fun _ _ _ _ => .ok [[⟨"USER", "hi"⟩, ⟨"ASSISTANT", "hello"⟩]],
   fun _ _ _ _ => .ok [], fun _ _ _ _ => .ok ()⟩

/-- Witness for C6: after initialization against `client_hist` the
history is exactly the two formatted entries in order and the guidance
is appended to the prior system prompt. -/
theorem C6_witness :
    on_agent_initialized hook0 client_hist ⟨"sys", []⟩ =
      { system_prompt := "sys" ++ memory_guidance,
        messages := [⟨"user", [⟨some "hi"⟩]⟩, ⟨"assistant", [⟨some "hello"⟩]⟩] } :=
  (C6_init_success hook0 client_hist ⟨"sys", []⟩
    [[⟨"USER", "hi"⟩, ⟨"ASSISTANT", "hello"⟩]] rfl).1 (by decide)

/-- C2 (amended): the persistence call is made exactly once — with the
one-element list holding the snapshot's (text, role) pair — when the
most recent turn's role is `user` or `assistant` and it has a text field
(for a `user` turn, provided both retrievals succeed); a turn with any
other role string is ignored entirely (see the counterexample). -/
theorem C2_amended (hook : MemoryHook) (client : MemoryClient) (agent : Agent)
    (last : Msg) (c0 : ContentBlock) (text : String)
    (hlast : agent.messages.getLast? = some last)
    (hrole : last.role = "user" ∨ last.role = "assistant")
    (hhead : last.content.head? = some c0)
    (htext : c0.text = some text)
    (hret : ∀ ns, ∃ ms, client.retrieve_memories hook.memory_id ns text 3 = Except.ok ms) :
    (on_message_added hook client agent).calls.filter StoreCall.isSave =
      [StoreCall.saveCall hook.memory_id hook.actor_id hook.session_id
        [(text, last.role)]] := by
  unfold on_message_added _add_context_user_query
  rcases hrole with hrole | hrole
  · obtain ⟨ms1, h1⟩ := hret (resolve_namespace hook.namespace_prefix "preferences" hook.actor_id)
    obtain ⟨ms2, h2⟩ := hret (resolve_namespace hook.namespace_prefix "issues" hook.actor_id)
    simp only [hlast, hrole, hhead, htext, h1, h2]
    cases h3 : client.save_conversation hook.memory_id hook.actor_id hook.session_id
        [(text, "user")] <;>
      simp [h3, StoreCall.isSave]
  · simp only [hlast, hrole, hhead, htext]
    cases h3 : client.save_conversation hook.memory_id hook.actor_id hook.session_id
        [(text, "assistant")] <;>
      simp [h3, StoreCall.isSave]

/-- Witness for C2 (amended): an assistant turn is persisted exactly
once. -/
theorem C2_amended_witness :
    (on_message_added hook0 client_ok
      ⟨"sys", [⟨"assistant", [⟨some "y"⟩]⟩]⟩).calls.filter StoreCall.isSave =
      [StoreCall.saveCall "mem1" "alice" "s1" [("y", "assistant")]] :=
  C2_amended hook0 client_ok ⟨"sys", [⟨"assistant", [⟨some "y"⟩]⟩]⟩
    ⟨"assistant", [⟨some "y"⟩]⟩ ⟨some "y"⟩ "y" rfl (Or.inr rfl) rfl rfl
    (fun ns => ⟨[], by simp [client_ok, stub_client]⟩)

/-- C7 (counterexample): the role mapping is not the identity on the
known role `assistant`: a stored message whose role is already the
lowercase `assistant` is re-tagged `user`. -/
theorem C7_counterexample :
    format_recent_turns [⟨"assistant", "x"⟩] = [⟨"user", [⟨some "x"⟩]⟩] ∧
    ("user" : String) ≠ "assistant" :=
  ⟨rfl, by decide⟩

/-- C7 (amended): `format_recent_turns` preserves length and order with
role and text mapped 1:1 in sequence; the role mapping sends exactly the
store-level role `"ASSISTANT"` to `"assistant"` and every other role
string — including `"assistant"` and `"user"` themselves — to
`"user"`. -/
theorem C7_amended (turns : List StoreMsg) :
    (format_recent_turns turns).length = turns.length ∧
    (format_recent_turns turns).map Msg.role =
      turns.map (fun t => if t.role = "ASSISTANT" then "assistant" else "user") ∧
    (format_recent_turns turns).map Msg.content =
      turns.map (fun t => [⟨some t.text⟩]) := by
  refine ⟨by simp [format_recent_turns], ?_, ?_⟩ <;>
    simp [format_recent_turns, format_turn_msg]

/-- Modelled from the spec: namespace resolution as the spec words it —
"`{prefix}/preferences/{actorId}` ...; `prefix` is omitted when empty" —
i.e. an empty prefix contributes neither itself nor its separator. The
repository builds the namespaces with bare f-strings; this definition
exists only to compare the two. -/
def resolve_namespace_spec (pfx category actor_id : String) : String :=
  if pfx = "" then category ++ "/" ++ actor_id
  else pfx ++ "/" ++ category ++ "/" ++ actor_id

/-- C8 (counterexample): with an empty prefix the f-string still emits
the leading separator, so the resolved namespace is
`/preferences/alice`, not the prefix-omitted `preferences/alice` the
spec describes. -/
theorem C8_counterexample :
    resolve_namespace "" "preferences" "alice" = "/preferences/alice" ∧
    resolve_namespace "" "preferences" "alice" ≠
      resolve_namespace_spec "" "preferences" "alice" :=
  ⟨rfl, by decide⟩

/-- C8 (amended): resolution is deterministic — two hook instances with
fieldwise-equal configuration produce identical `on_message_added`
behavior (agent, trace and outcome) — and the resolved path always has
the literal form `{prefix}/{category}/{actorId}`, so an empty prefix
yields a leading `/` instead of being omitted together with its
separator. -/
theorem C8_amended (h1 h2 : MemoryHook) (client : MemoryClient) (agent : Agent)
    (category actor_id : String)
    (hm : h1.memory_id = h2.memory_id) (ha : h1.actor_id = h2.actor_id)
    (hs : h1.session_id = h2.session_id)
    (hp : h1.namespace_prefix = h2.namespace_prefix) :
    on_message_added h1 client agent = on_message_added h2 client agent ∧
    resolve_namespace "" category actor_id = "/" ++ category ++ "/" ++ actor_id := by
  obtain ⟨m1, a1, s1, p1⟩ := h1
  obtain ⟨m2, a2, s2, p2⟩ := h2
  simp only at hm ha hs hp
  subst hm ha hs hp
  exact ⟨rfl, by simp [resolve_namespace]⟩

/-- Witness for C8 (amended) at two identically configured hooks. -/
theorem C8_amended_witness :
    on_message_added hook0 client_ok (user_agent "t") =
      on_message_added hook0 client_ok (user_agent "t") ∧
    resolve_namespace "" "preferences" "alice" = "/" ++ "preferences" ++ "/" ++ "alice" :=
  C8_amended hook0 hook0 client_ok (user_agent "t") "preferences" "alice"
    rfl rfl rfl rfl

/-- C9: a most recent turn whose first content block has no text field
makes `on_message_added` return normally with no store call and the
agent untouched, whatever the turn's role. -/
theorem C9_no_text_no_action (hook : MemoryHook) (client : MemoryClient)
    (agent : Agent) (last : Msg) (c0 : ContentBlock)
    (hlast : agent.messages.getLast? = some last)
    (hhead : last.content.head? = some c0)
    (htext : c0.text = none) :
    on_message_added hook client agent = ⟨agent, [], .ok ()⟩ := by
  unfold on_message_added
  by_cases hrole : last.role = "user" ∨ last.role = "assistant"
  · simp only [hlast, hhead, htext]
    simp [hrole]
  · simp only [hlast]
    simp [hrole]

/-- Witness for C9: a user turn carrying only a text-less content
block. -/
theorem C9_witness :
    on_message_added hook0 client_ok ⟨"sys", [⟨"user", [⟨none⟩]⟩]⟩ =
      ⟨⟨"sys", [⟨"user", [⟨none⟩]⟩]⟩, [], .ok ()⟩ :=
  C9_no_text_no_action hook0 client_ok ⟨"sys", [⟨"user", [⟨none⟩]⟩]⟩
    ⟨"user", [⟨none⟩]⟩ ⟨none⟩ rfl rfl rfl

/-- C10: every store call issued by `on_message_added` on a user turn —
both retrievals and the save — uses the pre-augmentation snapshot: each
retrieval queries the original turn text and the save persists the
original (text, role) pair, even when the in-place augmentation has
already rewritten the live turn text. -/
theorem C10_snapshot_originals (hook : MemoryHook) (client : MemoryClient)
    (agent : Agent) (last : Msg) (c0 : ContentBlock) (text : String)
    (hlast : agent.messages.getLast? = some last)
    (hrole : last.role = "user")
    (hhead : last.content.head? = some c0)
    (htext : c0.text = some text) :
    ((on_message_added hook client agent).calls).Forall
      (call_uses_original text "user") := by
  unfold on_message_added _add_context_user_query
  simp only [hlast, hrole, hhead, htext]
  cases h1 : client.retrieve_memories hook.memory_id
      (resolve_namespace hook.namespace_prefix "preferences" hook.actor_id) text 3 with
  | error e => simp [h1, call_uses_original, List.Forall]
  | ok ms1 =>
      cases h2 : client.retrieve_memories hook.memory_id
          (resolve_namespace hook.namespace_prefix "issues" hook.actor_id) text 3 with
      | error e => simp [h1, h2, call_uses_original, List.Forall]
      | ok ms2 =>
          cases h3 : client.save_conversation hook.memory_id hook.actor_id
              hook.session_id [(text, "user")] with
          | ok u => simp [h1, h2, h3, call_uses_original, List.Forall]
          | error e => simp [h1, h2, h3, call_uses_original, List.Forall]

/-- Witness for C10: with two preference records the live turn text is
augmented (the agent changes), yet the issues query and the persisted
pair still use the original text `q`. -/
theorem C10_witness :
    ((on_message_added hook0 client_two_prefs (user_agent "q")).calls).Forall
      (call_uses_original "q" "user") ∧
    (on_message_added hook0 client_two_prefs (user_agent "q")).agent ≠ user_agent "q" :=
  ⟨C10_snapshot_originals hook0 client_two_prefs (user_agent "q")
      ⟨"user", [⟨some "q"⟩]⟩ ⟨some "q"⟩ "q" rfl rfl rfl rfl,
    by decide⟩
